import Mathlib

/-!
Verification of the wrangler/opencode integration subsystem of this
repository: the context collector, side-channel writer and process
supervisor of `packages/wrangler/src/opencode-integration.ts` (the later
of the two drafts concatenated in that file), the publishing coordinator
of `scripts/publish-packages.js`, and the package assembler of the
build/publish script bundled with `packages/opencode/tui/scripts/build.sh`.

The embedding is shallow: JavaScript objects become Lean structures,
environment maps and records become association lists with last-binding-wins
lookup (matching object-spread semantics), the filesystem becomes the list
of existing paths, and the event-driven child-process wait becomes a
tagged `ChildOutcome` value.
-/

set_option autoImplicit false

namespace WranglerOpenCode

/-! ## String utilities (embeddings of `String.prototype` operations) -/

/-- Embedding of `needle` being a prefix of the character list `hay`
(the inner loop of `String.prototype.includes`). -/
def charsStartWith : List Char → List Char → Bool
  | _, [] => true
  | [], _ :: _ => false
  | c :: cs, d :: ds => c == d && charsStartWith cs ds

/-- Embedding of `hay.includes(needle)` on character lists. -/
def charsContain : List Char → List Char → Bool
  | [], needle => needle.isEmpty
  | c :: rest, needle => charsStartWith (c :: rest) needle || charsContain rest needle

/-- Embedding of `s.includes(sub)`. -/
def strContains (s sub : String) : Bool :=
  charsContain s.data sub.data

/-- Embedding of `s.toUpperCase()` (ASCII, as all keys compared in the
source are matched against ASCII literals). -/
def strToUpper (s : String) : String :=
  String.mk (s.data.map Char.toUpper)

theorem charsStartWith_refl (l : List Char) : charsStartWith l l = true := by
  induction l with
  | nil => rfl
  | cons c cs ih => simp [charsStartWith, ih]

/-- A string always contains its own suffix: `hay = pre ++ needle`. -/
theorem charsContain_append_self (pre needle : List Char) :
    charsContain (pre ++ needle) needle = true := by
  induction pre with
  | nil =>
    cases needle with
    | nil => rfl
    | cons d ds => simp [charsContain, charsStartWith_refl]
  | cons c cs ih => simp [charsContain, ih]

theorem strContains_append_right (a b : String) : strContains (a ++ b) b = true := by
  have hdata : (a ++ b).data = a.data ++ b.data := by
    cases a; cases b; rfl
  simp [strContains, hdata, charsContain_append_self]

/-! ## Environment maps

A JavaScript object literal built with spreads (`{...a, k: v, ...b}`)
binds later keys over earlier ones; we model the object as the ordered
list of bindings and `envLookup` as last-binding-wins lookup. -/

/-- Lookup in a JS-object-style binding list: the **last** binding of a
key wins, matching object-spread semantics. -/
def envLookup (env : List (String × String)) (k : String) : Option String :=
  env.reverse.lookup k

/-! ## JavaScript values

`JSVal` is the little universe of dynamically-typed values the embedded
functions inspect (`typeof x === "string"`, truthiness of config fields). -/

inductive JSVal where
  | str (s : String)
  | num (n : Int)
  | boolean (b : Bool)
  | null
  deriving DecidableEq, Repr

/-! ## Context Collector (`gatherProjectContext`) -/

/-- The `durable_objects` field of a parsed wrangler `Config`
(its `bindings` member may itself be absent). -/
structure DurableObjectsCfg where
  bindings : Option (List JSVal)
  deriving DecidableEq, Repr

/-- The `queues` field of a parsed wrangler `Config`. -/
structure QueuesCfg where
  producers : Option (List JSVal)
  consumers : Option (List JSVal)
  deriving DecidableEq, Repr

/-- The slice of the normalized wrangler `Config` object that
`gatherProjectContext` reads. Every field may be absent (`undefined`). -/
structure Config where
  kv_namespaces : Option (List JSVal)
  durable_objects : Option DurableObjectsCfg
  r2_buckets : Option (List JSVal)
  d1_databases : Option (List JSVal)
  queues : Option QueuesCfg
  services : Option (List JSVal)
  analytics_engine_datasets : Option (List JSVal)
  ai : Option JSVal
  browser : Option JSVal
  vectorize : Option (List JSVal)
  hyperdrive : Option (List JSVal)
  workflows : Option (List JSVal)
  mtls_certificates : Option (List JSVal)
  dispatch_namespaces : Option (List JSVal)
  vars : Option (List (String × JSVal))
  compatibility_date : Option String
  account_id : Option String
  name : Option String
  deriving DecidableEq, Repr

/-- The `queues` member of the extracted bindings record:
`{ producers: ..., consumers: ... }`. -/
structure QueuesBindings where
  producers : List JSVal
  consumers : List JSVal
  deriving DecidableEq, Repr

/-- The `bindings` record of `ProjectContext`. -/
structure Bindings where
  kv_namespaces : List JSVal
  durable_objects : List JSVal
  r2_buckets : List JSVal
  d1_databases : List JSVal
  queues : QueuesBindings
  services : List JSVal
  analytics_engine_datasets : List JSVal
  ai : Option JSVal
  browser : Option JSVal
  vectorize : List JSVal
  hyperdrive : List JSVal
  workflows : List JSVal
  mtls_certificates : List JSVal
  dispatch_namespaces : List JSVal
  vars : List (String × JSVal)
  secrets : List String
  deriving DecidableEq, Repr

/-- The normalized snapshot handed to the assistant process. -/
structure ProjectContext where
  wranglerConfig : Option Config
  configFiles : List String
  projectRoot : String
  workersRuntime : Option String
  bindings : Bindings
  environment : Option String
  accountId : Option String
  workerName : Option String
  deriving DecidableEq, Repr

/-- Embedding of the name-pattern filter: a variable key is classified as
a secret when its uppercased form contains SECRET, KEY or TOKEN. -/
def isSecretKey (key : String) : Bool :=
  strContains (strToUpper key) "SECRET" ||
    strContains (strToUpper key) "KEY" ||
    strContains (strToUpper key) "TOKEN"

/-- Embedding of
`Object.keys(wranglerConfig?.vars || {}).filter(key => key.toUpperCase().includes(...))`.
Polymorphic in the value type: only keys are inspected. -/
def secretsOf {α : Type} (vars : List (String × α)) : List String :=
  (vars.map Prod.fst).filter isSecretKey

/-- Embedding of the bindings-extraction block of `gatherProjectContext`:
every field is `wranglerConfig?.<field> || <default>`. -/
def buildBindings (cfg : Option Config) : Bindings where
  kv_namespaces := (cfg.bind Config.kv_namespaces).getD []
  durable_objects := ((cfg.bind Config.durable_objects).bind DurableObjectsCfg.bindings).getD []
  r2_buckets := (cfg.bind Config.r2_buckets).getD []
  d1_databases := (cfg.bind Config.d1_databases).getD []
  queues :=
    { producers := ((cfg.bind Config.queues).bind QueuesCfg.producers).getD []
      consumers := ((cfg.bind Config.queues).bind QueuesCfg.consumers).getD [] }
  services := (cfg.bind Config.services).getD []
  analytics_engine_datasets := (cfg.bind Config.analytics_engine_datasets).getD []
  ai := cfg.bind Config.ai
  browser := cfg.bind Config.browser
  vectorize := (cfg.bind Config.vectorize).getD []
  hyperdrive := (cfg.bind Config.hyperdrive).getD []
  workflows := (cfg.bind Config.workflows).getD []
  mtls_certificates := (cfg.bind Config.mtls_certificates).getD []
  dispatch_namespaces := (cfg.bind Config.dispatch_namespaces).getD []
  vars := (cfg.bind Config.vars).getD []
  secrets := secretsOf ((cfg.bind Config.vars).getD [])

/-- Embedding of `path.join(a, b)` for the simple two-segment case the
source uses. -/
def joinPath (a b : String) : String := a ++ "/" ++ b

/-- The fixed probe list of `gatherProjectContext`. -/
def possibleConfigFiles : List String :=
  ["wrangler.toml", "wrangler.json", "wrangler.jsonc"]

/-- Embedding of `gatherProjectContext`. The ambient reads are passed
explicitly: `projectRoot` is `process.cwd()`, `fs` the set of existing
paths probed by `existsSync`, `configRead` the outcome of the
`readConfig` try-block (`none` when it threw), and `wranglerEnv` the
ambient `WRANGLER_ENV` variable. -/
def gatherProjectContext (projectRoot : String) (fs : List String)
    (configRead : Option Config) (wranglerEnv : Option String) : ProjectContext :=
  let configFiles :=
    (possibleConfigFiles.map (joinPath projectRoot)).filter (fun p => fs.contains p)
  { wranglerConfig := configRead
    configFiles := configFiles
    projectRoot := projectRoot
    workersRuntime := configRead.bind Config.compatibility_date
    bindings := buildBindings configRead
    environment := wranglerEnv
    accountId := configRead.bind Config.account_id
    workerName := configRead.bind Config.name }

/-! ## Side-Channel Writer (`writeContextFile`)

The filesystem is modelled as the list of existing paths. -/

/-- The transient file name produced by `writeContextFile`:
`join(tmpdir(), "wrangler-context-" + Date.now() + ".json")`. -/
def contextFilePath (tmpDir : String) (now : Nat) : String :=
  joinPath tmpDir ("wrangler-context-" ++ toString now ++ ".json")

/-- Embedding of `writeContextFile`: creates the temp directory (a no-op
in the path-set model), writes the serialized context at the
timestamp-qualified path, and returns that path together with the new
filesystem. -/
def writeContextFile (tmpDir : String) (now : Nat) (fs : List String) :
    String × List String :=
  let contextFile := contextFilePath tmpDir now
  (contextFile, contextFile :: fs)

/-! ## Process Supervisor (`runInteractiveSession`, `getOpenCodeCommand`) -/

/-- The resolved way to start the assistant: `{ command, args }`. -/
structure OCCommand where
  command : String
  args : List String
  deriving DecidableEq, Repr

/-- What the spawned child process reported: either an `exit` event with
an exit code (`none` models JavaScript `null`, i.e. a signal kill) or an
`error` event carrying the OS error message. -/
inductive ChildOutcome where
  | exited (code : Option Int)
  | spawnError (msg : String)
  deriving DecidableEq, Repr

/-- The record of the one `spawn` call: command, argument vector and
child environment. -/
structure SpawnRecord where
  command : String
  args : List String
  env : List (String × String)
  deriving DecidableEq, Repr

/-- Embedding of the spawn environment literal
`{...process.env, OPENCODE_CONTEXT_FILE: contextFile, ...(initialPrompt && { OPENCODE_INITIAL_PROMPT: initialPrompt })}`.
`initialPrompt && {...}` spreads nothing when `initialPrompt` is
`undefined` or the empty string (both falsy). -/
def spawnEnv (baseEnv : List (String × String)) (contextFile : String)
    (initialPrompt : Option String) : List (String × String) :=
  baseEnv ++ [("OPENCODE_CONTEXT_FILE", contextFile)] ++
    (match initialPrompt with
     | some p => if p = "" then [] else [("OPENCODE_INITIAL_PROMPT", p)]
     | none => [])

/-- Embedding of `fs.unlink`: fails (rejects) when the path does not
exist, otherwise removes every trace of it. -/
def unlink (fs : List String) (p : String) : Except String (List String) :=
  if fs.contains p then .ok (fs.filter (fun q => q != p)) else .error "ENOENT"

/-- Embedding of the `finally` block: `try { await fs.unlink(contextFile) } catch {}`.
Returns the resulting filesystem and whether an error escaped the block
(the catch swallows everything, so the flag is always `false`). -/
def cleanupContextFile (fs : List String) (p : String) : List String × Bool :=
  match unlink fs p with
  | .ok fs' => (fs', false)
  | .error _ => (fs, false)

/-- Rendering of a JS template-literal interpolation of the exit code
(`null` when the child was killed by a signal). -/
def exitCodeString : Option Int → String
  | some n => toString n
  | none => "null"

deriving instance DecidableEq for Except

/-- Everything observable about one run of `runInteractiveSession`:
the spawn call if one happened, the settled promise, the final
filesystem, and whether the cleanup block raised. -/
structure SessionResult where
  spawned : Option SpawnRecord
  result : Except String Unit
  fs : List String
  cleanupRaised : Bool
  deriving DecidableEq, Repr

/-- Embedding of `runInteractiveSession` (later draft). Ambient inputs
are explicit: `baseEnv` is `process.env`, `fs0` the filesystem,
`resolution` the outcome of `getOpenCodeCommand()` (which may throw),
`outcome` what the spawned child reported, `tmpDir`/`now` the inputs of
`writeContextFile`. The context file is written before the `try`, the
resolution happens inside it, and the `finally` block deletes the file
on every path. -/
def runInteractiveSession (baseEnv : List (String × String)) (fs0 : List String)
    (context : ProjectContext) (initialPrompt : Option String)
    (resolution : Except String OCCommand) (outcome : ChildOutcome)
    (tmpDir : String) (now : Nat) : SessionResult :=
  let written := writeContextFile tmpDir now fs0
  let contextFile := written.1
  let fs1 := written.2
  match resolution with
  | .error e =>
    let cleaned := cleanupContextFile fs1 contextFile
    { spawned := none, result := .error e, fs := cleaned.1, cleanupRaised := cleaned.2 }
  | .ok cmd =>
    let commandArgs := cmd.args ++ [context.projectRoot]
    let sp : SpawnRecord :=
      { command := cmd.command
        args := commandArgs
        env := spawnEnv baseEnv contextFile initialPrompt }
    let result : Except String Unit :=
      match outcome with
      | .exited code =>
        if code = some 0 then .ok ()
        else .error ("Wrangler AI exited with code " ++ exitCodeString code)
      | .spawnError msg => .error ("Failed to launch Wrangler AI: " ++ msg)
    let cleaned := cleanupContextFile fs1 contextFile
    { spawned := some sp, result := result, fs := cleaned.1, cleanupRaised := cleaned.2 }

/-- The user-facing failure message thrown by the catch-all handler of
`getOpenCodeCommand`. -/
def packageNotFoundMsg : String :=
  "opencode package not found. Please ensure @jahands/opencode-cf workspace package is available or @jahands/opencode-cf is installed."

/-- The error thrown inside the try-block when a package directory was
resolved but its `bin/opencode` executable is missing. -/
def binaryNotFoundMsg : String :=
  "opencode binary not found in package"

/-- The body of the try-block of `getOpenCodeCommand`: pick the package
directory through `require.resolve` (`requireResolved`, `none` when it
threw) or, failing that, through the parent-directory walk for
`node_modules/@jahands/opencode-cf` (`walkFound`); then expect the
executable at the fixed `bin/opencode` path inside it. -/
def resolveInstalledPackage (requireResolved walkFound : Option String)
    (fs : List String) : Except String OCCommand :=
  let opencodeDir : Option String :=
    match requireResolved with
    | some d => some d
    | none => walkFound
  match opencodeDir with
  | none => .error "Package not found in node_modules"
  | some dir =>
    let binPath := joinPath (joinPath dir "bin") "opencode"
    if fs.contains binPath then .ok { command := binPath, args := [] }
    else .error binaryNotFoundMsg

/-- Embedding of `getOpenCodeCommand` (later draft). Ambient inputs are
explicit: `workspaceExists` is `existsSync(workspaceOpenCodePath)`,
and `fs` the existing paths probed by `existsSync(binPath)`. The whole
installed-package branch sits in a `try` whose `catch` discards the
inner error and rethrows the single package-not-found error. -/
def getOpenCodeCommand (workspaceExists : Bool)
    (requireResolved walkFound : Option String) (fs : List String) :
    Except String OCCommand :=
  if workspaceExists then
    .ok { command := "bun", args := ["run", "../../opencode/opencode/src/index.ts"] }
  else
    match resolveInstalledPackage requireResolved walkFound fs with
    | .ok c => .ok c
    | .error _ => .error packageNotFoundMsg

/-! ## Top-level entry point (`launchOpenCode`) -/

/-- The slice of the yargs argument object `launchOpenCode` reads:
`prompt` is `undefined` (`none`) or an arbitrary dynamic value. -/
structure OpenCodeArgs where
  prompt : Option JSVal
  deriving DecidableEq, Repr

/-- Embedding of the prompt extraction in `launchOpenCode`:
`typeof args.prompt === "string" && args.prompt.length > 0 ? args.prompt : undefined`. -/
def extractInitialPrompt : Option JSVal → Option String
  | some (.str s) => if s.length > 0 then some s else none
  | _ => none

/-- Embedding of `launchOpenCode`: gather the context, extract the
initial prompt, and run the interactive session. Ambient inputs are
passed through to the embedded collaborators. -/
def launchOpenCode (args : OpenCodeArgs) (baseEnv : List (String × String))
    (fs0 : List String) (projectRoot : String) (configRead : Option Config)
    (wranglerEnv : Option String) (resolution : Except String OCCommand)
    (outcome : ChildOutcome) (tmpDir : String) (now : Nat) : SessionResult :=
  let context := gatherProjectContext projectRoot fs0 configRead wranglerEnv
  let initialPrompt := extractInitialPrompt args.prompt
  runInteractiveSession baseEnv fs0 context initialPrompt resolution outcome tmpDir now

/-! ## Publishing Coordinator (`scripts/publish-packages.js`) -/

inductive BumpType where
  | major
  | minor
  | patch
  deriving DecidableEq, Repr

/-- Embedding of `version.split('.')`. -/
def splitDotAux : List Char → List Char → List String
  | [], acc => [String.mk acc.reverse]
  | c :: rest, acc =>
    if c = '.' then String.mk acc.reverse :: splitDotAux rest []
    else splitDotAux rest (c :: acc)

def splitDot (s : String) : List String :=
  splitDotAux s.data []

def natFromCharsAux : List Char → Nat → Option Nat
  | [], acc => some acc
  | c :: rest, acc =>
    if c.isDigit then natFromCharsAux rest (acc * 10 + (c.toNat - 48)) else none

/-- Embedding of JavaScript `Number(s)` restricted to the nonnegative
integers version components are: the empty string coerces to `0`, a
decimal digit string to its value, anything else to `NaN` (`none`). -/
def jsNumberNat (s : String) : Option Nat :=
  natFromCharsAux s.data 0

/-- Embedding of
`const [major, minor, patch] = pkg.version.split('.').map(Number)`:
the first three components, all numeric (`none` models the NaN
arithmetic a malformed version would produce). -/
def parseVersion (s : String) : Option (Nat × Nat × Nat) :=
  match (splitDot s).map jsNumberNat with
  | some a :: some b :: some c :: _ => some (a, b, c)
  | _ => none

def versionString (major minor patch : Nat) : String :=
  toString major ++ "." ++ toString minor ++ "." ++ toString patch

/-- The slice of a `package.json` manifest the coordinator reads and
rewrites. `dependencies` is `none` when the manifest has no
`dependencies` object at all. -/
structure Pkg where
  name : String
  version : String
  dependencies : Option (List (String × String))
  deriving DecidableEq, Repr

/-- Embedding of `updatePackageVersion`: parse the package's own current
version and bump the requested component, zeroing the lower ones. -/
def updatePackageVersion (pkg : Pkg) (bumpType : BumpType) : Option Pkg :=
  match parseVersion pkg.version with
  | none => none
  | some (major, minor, patch) =>
    let newVersion :=
      match bumpType with
      | .major => versionString (major + 1) 0 0
      | .minor => versionString major (minor + 1) 0
      | .patch => versionString major minor (patch + 1)
    some { pkg with version := newVersion }

/-- Rebind key `k` to `v` in a JS-object record, leaving other keys
untouched (the assignment `pkg.dependencies[k] = v`). -/
def setDep (deps : List (String × String)) (k v : String) : List (String × String) :=
  deps.map (fun kv => bif kv.1 == k then (kv.1, v) else kv)

/-- Embedding of `updateWranglerDependency`: the guard is the JS
truthiness test `pkg.dependencies && pkg.dependencies['@jahands/opencode-cf']`
— the rewrite to `^<opencodeVersion>` happens only when the
`dependencies` object exists and the declared value is a truthy string
(any string but the empty one); otherwise the manifest is left
unchanged. -/
def updateWranglerDependency (wranglerPkg : Pkg) (opencodeVersion : String) : Pkg :=
  match wranglerPkg.dependencies with
  | none => wranglerPkg
  | some deps =>
    match deps.lookup "@jahands/opencode-cf" with
    | none => wranglerPkg
    | some v =>
      bif v != "" then
        { wranglerPkg with
            dependencies :=
              some (setDep deps "@jahands/opencode-cf" ("^" ++ opencodeVersion)) }
      else wranglerPkg

/-- Steps 1 to 3 of `main`: bump both packages by the same increment and
rewrite the cross-dependency to the assistant's new version. -/
def publishBump (opencodePkg wranglerPkg : Pkg) (bumpType : BumpType) :
    Option (Pkg × Pkg) := do
  let opencodeBumped ← updatePackageVersion opencodePkg bumpType
  let wranglerBumped ← updatePackageVersion wranglerPkg bumpType
  let wranglerFinal := updateWranglerDependency wranglerBumped opencodeBumped.version
  pure (opencodeBumped, wranglerFinal)

/-- The externally visible steps of `main`, in program order. -/
inductive PublishAction where
  | bumpOpenCode
  | bumpWrangler
  | updateDependency
  | buildPackages
  | publishOpenCode
  | publishWrangler
  | gitAdd
  | gitCommit
  deriving DecidableEq, Repr

def validBumpTypes : List String := ["patch", "minor", "major"]

/-- Embedding of the control flow of `main` as the trace of attempted
steps: an invalid bump type exits before any step, and `execCommand`
exits the process on failure, truncating the trace after the failed
command. -/
def mainTrace (bumpType : String) (buildOk pubOcOk pubWrOk gitAddOk : Bool) :
    List PublishAction :=
  if validBumpTypes.contains bumpType then
    [.bumpOpenCode, .bumpWrangler, .updateDependency, .buildPackages] ++
      (if buildOk then
        [.publishOpenCode] ++
          (if pubOcOk then
            [.publishWrangler] ++
              (if pubWrOk then
                [.gitAdd] ++ (if gitAddOk then [.gitCommit] else [])
              else [])
          else [])
      else [])
  else []

/-! ## Package Assembler (publish script of the opencode distribution) -/

/-- The wrapper package's published name. -/
def mainPackageName : String := "@jahands/opencode-cf"

/-- Embedding of the `targets` expression: development builds collapse
the matrix to the invoking host's platform/architecture pair (with
`win32` renamed to `windows` and any non-`x64` architecture treated as
`arm64`); otherwise the fixed five-entry matrix. -/
def targets (devBuild : Bool) (hostPlatform hostArch : String) :
    List (String × String) :=
  if devBuild then
    [((if hostPlatform == "win32" then "windows" else hostPlatform),
      (if hostArch == "x64" then "x64" else "arm64"))]
  else
    [("linux", "arm64"), ("linux", "x64"), ("darwin", "x64"),
     ("darwin", "arm64"), ("windows", "x64")]

/-- A per-target `package.json` manifest as emitted by the loop body. -/
structure PlatformPkg where
  name : String
  version : String
  os : List String
  cpu : List String
  main : String
  bin : List (String × String)
  deriving DecidableEq, Repr

/-- Embedding of the per-target manifest literal: templated name,
shared version, singleton `os` array with `windows` normalized to
`win32`, singleton `cpu` array, and entry point / binary alias pointing
at the platform executable (`.exe` on Windows). -/
def mkPlatformPkg (version os arch : String) : PlatformPkg :=
  let name := mainPackageName ++ "-" ++ os ++ "-" ++ arch
  let executableName := if os == "windows" then "opencode.exe" else "opencode"
  { name := name
    version := version
    os := [if os == "windows" then "win32" else os]
    cpu := [arch]
    main := "./bin/" ++ executableName
    bin := [("opencode", "./bin/" ++ executableName)] }

/-- The top-level wrapper manifest. -/
structure WrapperPkg where
  name : String
  version : String
  main : String
  bin : List (String × String)
  optionalDependencies : List (String × String)
  postinstall : String
  deriving DecidableEq, Repr

/-- Embedding of one build cycle: the per-target manifests emitted by
the loop (which also accumulates `optionalDependencies[name] = version`)
followed by the wrapper manifest. -/
def buildCycle (devBuild : Bool) (hostPlatform hostArch : String) (version : String) :
    List PlatformPkg × WrapperPkg :=
  let ts := targets devBuild hostPlatform hostArch
  let pkgs := ts.map (fun t => mkPlatformPkg version t.1 t.2)
  let optionalDependencies :=
    ts.map (fun t => (mainPackageName ++ "-" ++ t.1 ++ "-" ++ t.2, version))
  (pkgs,
    { name := mainPackageName
      version := version
      main := "./bin/opencode"
      bin := [("opencode", "./bin/opencode")]
      optionalDependencies := optionalDependencies
      postinstall := "node ./postinstall.mjs" })

/-! ## Helper lemmas -/

theorem cleanupContextFile_never_raises (fs : List String) (p : String) :
    (cleanupContextFile fs p).2 = false := by
  by_cases h : p ∈ fs <;> simp [cleanupContextFile, unlink, h]

theorem cleanupContextFile_removes (fs : List String) (p : String)
    (h : p ∈ fs) : p ∉ (cleanupContextFile fs p).1 := by
  simp [cleanupContextFile, unlink, h, List.mem_filter]

/-! ## Claim theorems -/

/-- Claim C3: after every invocation of the session runner — success,
non-zero exit, spawn error, or resolution error thrown before spawning —
the transient context file path returned by `writeContextFile` does not
exist on disk, and the cleanup step never raises. -/
theorem runInteractiveSession_always_cleans_up
    (baseEnv : List (String × String)) (fs0 : List String)
    (context : ProjectContext) (initialPrompt : Option String)
    (resolution : Except String OCCommand) (outcome : ChildOutcome)
    (tmpDir : String) (now : Nat) :
    (writeContextFile tmpDir now fs0).1 ∉
        (runInteractiveSession baseEnv fs0 context initialPrompt resolution outcome
          tmpDir now).fs
      ∧ (runInteractiveSession baseEnv fs0 context initialPrompt resolution outcome
          tmpDir now).cleanupRaised = false := by
  have hmem : (writeContextFile tmpDir now fs0).1 ∈ (writeContextFile tmpDir now fs0).2 := by
    simp [writeContextFile]
  cases resolution with
  | error e =>
    exact ⟨cleanupContextFile_removes _ _ hmem, cleanupContextFile_never_raises _ _⟩
  | ok cmd =>
    exact ⟨cleanupContextFile_removes _ _ hmem, cleanupContextFile_never_raises _ _⟩

/-- Claim C4: exit code `0` resolves the supervisor's promise; any exit
code `N ≠ 0` rejects with a message containing `N`; a spawn-time error
rejects with a message wrapping the underlying OS error message. -/
theorem runInteractiveSession_exit_mapping
    (baseEnv : List (String × String)) (fs0 : List String)
    (context : ProjectContext) (initialPrompt : Option String)
    (cmd : OCCommand) (tmpDir : String) (now : Nat) :
    (runInteractiveSession baseEnv fs0 context initialPrompt (.ok cmd)
        (.exited (some 0)) tmpDir now).result = .ok ()
  ∧ (∀ n : Int, n ≠ 0 →
      ∃ msg, (runInteractiveSession baseEnv fs0 context initialPrompt (.ok cmd)
          (.exited (some n)) tmpDir now).result = .error msg
        ∧ strContains msg (toString n) = true)
  ∧ (∀ osMsg : String,
      ∃ msg, (runInteractiveSession baseEnv fs0 context initialPrompt (.ok cmd)
          (.spawnError osMsg) tmpDir now).result = .error msg
        ∧ strContains msg osMsg = true) := by
  refine ⟨rfl, ?_, ?_⟩
  · intro n hn
    refine ⟨"Wrangler AI exited with code " ++ toString n, ?_, ?_⟩
    · simp [runInteractiveSession, exitCodeString, hn]
    · exact strContains_append_right _ _
  · intro osMsg
    exact ⟨"Failed to launch Wrangler AI: " ++ osMsg, rfl,
      strContains_append_right _ _⟩

/-- Witness for C4 at a concrete session: exit code `3` rejects with a
message containing `3`, exit code `0` resolves. -/
theorem runInteractiveSession_exit_mapping_witness :
    ((3 : Int) ≠ 0)
  ∧ (runInteractiveSession [] [] (gatherProjectContext "/proj" [] none none) none
      (.ok { command := "bun", args := ["run", "idx"] }) (.exited (some 0)) "/tmp" 7).result
      = .ok ()
  ∧ (∃ msg, (runInteractiveSession [] [] (gatherProjectContext "/proj" [] none none) none
      (.ok { command := "bun", args := ["run", "idx"] }) (.exited (some 3)) "/tmp" 7).result
      = .error msg ∧ strContains msg (toString (3 : Int)) = true) :=
  ⟨by decide,
    (runInteractiveSession_exit_mapping [] [] (gatherProjectContext "/proj" [] none none)
      none { command := "bun", args := ["run", "idx"] } "/tmp" 7).1,
    (runInteractiveSession_exit_mapping [] [] (gatherProjectContext "/proj" [] none none)
      none { command := "bun", args := ["run", "idx"] } "/tmp" 7).2.1 3 (by decide)⟩

/-- Claim C6: whenever no configuration parses successfully (the
config-read try-block produced nothing), the returned context's
`bindings` record is present with every list empty, `vars` the empty
object, and no `ai`/`browser` binding. -/
theorem gatherProjectContext_empty_bindings (projectRoot : String)
    (fs : List String) (wranglerEnv : Option String) :
    (gatherProjectContext projectRoot fs none wranglerEnv).bindings =
      { kv_namespaces := []
        durable_objects := []
        r2_buckets := []
        d1_databases := []
        queues := { producers := [], consumers := [] }
        services := []
        analytics_engine_datasets := []
        ai := none
        browser := none
        vectorize := []
        hyperdrive := []
        workflows := []
        mtls_certificates := []
        dispatch_namespaces := []
        vars := []
        secrets := [] } := rfl

theorem envLookup_spawnEnv_contextFile (baseEnv : List (String × String))
    (cf : String) (initialPrompt : Option String) :
    envLookup (spawnEnv baseEnv cf initialPrompt) "OPENCODE_CONTEXT_FILE" = some cf := by
  have hne : (("OPENCODE_CONTEXT_FILE" : String) == "OPENCODE_INITIAL_PROMPT") = false := by
    decide
  cases initialPrompt with
  | none => simp [spawnEnv, envLookup, List.lookup]
  | some p =>
    by_cases hp : p = "" <;>
      simp [spawnEnv, envLookup, List.reverse_append, List.lookup, hp, hne]

theorem envLookup_spawnEnv_prompt_some (baseEnv : List (String × String))
    (cf p : String) (hp : p ≠ "") :
    envLookup (spawnEnv baseEnv cf (some p)) "OPENCODE_INITIAL_PROMPT" = some p := by
  simp [spawnEnv, envLookup, List.reverse_append, List.lookup, hp]

theorem envLookup_spawnEnv_prompt_missing (baseEnv : List (String × String))
    (cf : String) (initialPrompt : Option String)
    (h : initialPrompt = none ∨ initialPrompt = some "") :
    envLookup (spawnEnv baseEnv cf initialPrompt) "OPENCODE_INITIAL_PROMPT" =
      envLookup baseEnv "OPENCODE_INITIAL_PROMPT" := by
  have hne : (("OPENCODE_INITIAL_PROMPT" : String) == "OPENCODE_CONTEXT_FILE") = false := by
    decide
  rcases h with h | h <;>
    simp [h, spawnEnv, envLookup, List.reverse_append, List.lookup, hne]

/-- Claim C1 (amended): the side-channel variables are named
`OPENCODE_CONTEXT_FILE` and `OPENCODE_INITIAL_PROMPT`, not
`CONTEXT_FILE`/`INITIAL_PROMPT`. Whenever resolution succeeds the child
environment binds `OPENCODE_CONTEXT_FILE` to the path returned by
`writeContextFile`; it binds `OPENCODE_INITIAL_PROMPT` to the
instruction exactly when a non-empty instruction was supplied (given a
base environment that does not already define it). -/
theorem runInteractiveSession_side_channel
    (baseEnv : List (String × String)) (fs0 : List String)
    (context : ProjectContext) (initialPrompt : Option String)
    (cmd : OCCommand) (outcome : ChildOutcome) (tmpDir : String) (now : Nat)
    (hbase : envLookup baseEnv "OPENCODE_INITIAL_PROMPT" = none) :
    ∃ sp, (runInteractiveSession baseEnv fs0 context initialPrompt (.ok cmd) outcome
        tmpDir now).spawned = some sp
      ∧ envLookup sp.env "OPENCODE_CONTEXT_FILE" = some (writeContextFile tmpDir now fs0).1
      ∧ (∀ p, initialPrompt = some p → p ≠ "" →
          envLookup sp.env "OPENCODE_INITIAL_PROMPT" = some p)
      ∧ ((initialPrompt = none ∨ initialPrompt = some "") →
          envLookup sp.env "OPENCODE_INITIAL_PROMPT" = none) := by
  refine ⟨_, rfl, envLookup_spawnEnv_contextFile _ _ _, ?_, ?_⟩
  · intro p hp hpe
    subst hp
    exact envLookup_spawnEnv_prompt_some _ _ _ hpe
  · intro h
    rw [envLookup_spawnEnv_prompt_missing _ _ _ h]
    exact hbase

/-- Counterexample for C1 as stated: at a concrete invocation with
instruction `"hello"` (and a clean base environment), the child
environment binds neither `CONTEXT_FILE` nor `INITIAL_PROMPT`. -/
theorem runInteractiveSession_side_channel_counterexample :
    (runInteractiveSession [] [] (gatherProjectContext "/proj" [] none none)
        (some "hello") (.ok { command := "bun", args := ["run", "idx"] })
        (.exited (some 0)) "/tmp" 42).spawned.map
      (fun sp => (envLookup sp.env "CONTEXT_FILE", envLookup sp.env "INITIAL_PROMPT"))
      = some (none, none) := by decide

/-- Witness for C1 (amended) at a concrete invocation with instruction
`"hello"`: the two `OPENCODE_`-prefixed variables are bound as claimed. -/
theorem runInteractiveSession_side_channel_witness :
    envLookup [] "OPENCODE_INITIAL_PROMPT" = none
  ∧ ∃ sp, (runInteractiveSession [] [] (gatherProjectContext "/proj" [] none none)
        (some "hello") (.ok { command := "bun", args := ["run", "idx"] })
        (.exited (some 0)) "/tmp" 42).spawned = some sp
      ∧ envLookup sp.env "OPENCODE_CONTEXT_FILE" = some (writeContextFile "/tmp" 42 []).1
      ∧ (∀ p, (some "hello" : Option String) = some p → p ≠ "" →
          envLookup sp.env "OPENCODE_INITIAL_PROMPT" = some p)
      ∧ (((some "hello" : Option String) = none ∨ (some "hello" : Option String) = some "") →
          envLookup sp.env "OPENCODE_INITIAL_PROMPT" = none) :=
  ⟨rfl, runInteractiveSession_side_channel [] [] (gatherProjectContext "/proj" [] none none)
    (some "hello") { command := "bun", args := ["run", "idx"] } (.exited (some 0))
    "/tmp" 42 rfl⟩

/-- Claim C2: the derived `secrets` list contains exactly the keys of
`vars` whose uppercased form contains SECRET, KEY or TOKEN, for any
configuration (including an absent one); it is insensitive to the values
bound to the keys and lists names only. -/
theorem secrets_exactly_matching_keys (cfg : Option Config) :
    (∀ k, k ∈ (buildBindings cfg).secrets ↔
        k ∈ ((cfg.bind Config.vars).getD []).map Prod.fst ∧ isSecretKey k = true)
  ∧ (∀ (α β : Type) (f : α → β) (vars : List (String × α)),
      secretsOf (vars.map (fun kv => (kv.1, f kv.2))) = secretsOf vars) := by
  constructor
  · intro k
    simp [buildBindings, secretsOf, List.mem_filter]
  · intro α β f vars
    simp [secretsOf, List.map_map]
    rfl

/-- Witness for C2 on a concrete configuration: `API_KEY` and
`my_token` are listed (names only), `DEBUG` is not. -/
theorem secrets_exactly_matching_keys_witness :
    ("API_KEY" ∈ (buildBindings (some
        { kv_namespaces := none, durable_objects := none, r2_buckets := none
          d1_databases := none, queues := none, services := none
          analytics_engine_datasets := none, ai := none, browser := none
          vectorize := none, hyperdrive := none, workflows := none
          mtls_certificates := none, dispatch_namespaces := none
          vars := some [("API_KEY", .str "abc"), ("DEBUG", .str "1"),
            ("my_token", .num 7)]
          compatibility_date := none, account_id := none, name := none })).secrets
      ↔ ("API_KEY" ∈ ([("API_KEY", JSVal.str "abc"), ("DEBUG", .str "1"),
            ("my_token", .num 7)].map Prod.fst) ∧ isSecretKey "API_KEY" = true)) :=
  (secrets_exactly_matching_keys (some
    { kv_namespaces := none, durable_objects := none, r2_buckets := none
      d1_databases := none, queues := none, services := none
      analytics_engine_datasets := none, ai := none, browser := none
      vectorize := none, hyperdrive := none, workflows := none
      mtls_certificates := none, dispatch_namespaces := none
      vars := some [("API_KEY", .str "abc"), ("DEBUG", .str "1"), ("my_token", .num 7)]
      compatibility_date := none, account_id := none, name := none })).1 "API_KEY"

/-- Claim C5 (amended): when the workspace entry point is absent, an
absent executable inside a resolved package directory raises the
internal binary-not-found error, but the surrounding catch replaces it:
the caller observes the package-not-found condition (which names the
package) in every failure case, not only when no directory was found. -/
theorem getOpenCodeCommand_failure_modes
    (requireResolved walkFound : Option String) (fs : List String) :
    (∀ dir, (requireResolved = some dir ∨ (requireResolved = none ∧ walkFound = some dir)) →
        fs.contains (joinPath (joinPath dir "bin") "opencode") = false →
        resolveInstalledPackage requireResolved walkFound fs = .error binaryNotFoundMsg
          ∧ getOpenCodeCommand false requireResolved walkFound fs = .error packageNotFoundMsg)
  ∧ (requireResolved = none → walkFound = none →
      getOpenCodeCommand false requireResolved walkFound fs = .error packageNotFoundMsg)
  ∧ strContains packageNotFoundMsg "@jahands/opencode-cf" = true := by
  refine ⟨?_, ?_, by decide⟩
  · intro dir hdir hbin
    have hbin' : joinPath (joinPath dir "bin") "opencode" ∉ fs := by simpa using hbin
    rcases hdir with h | ⟨h1, h2⟩
    · subst h
      constructor
      · simp [resolveInstalledPackage, hbin']
      · simp [getOpenCodeCommand, resolveInstalledPackage, hbin']
    · subst h1; subst h2
      constructor
      · simp [resolveInstalledPackage, hbin']
      · simp [getOpenCodeCommand, resolveInstalledPackage, hbin']
  · intro h1 h2
    subst h1; subst h2
    rfl

/-- Counterexample for C5 as stated: a package directory is resolved
and the executable is absent, yet the failure surfaced to the caller is
the package-not-found condition and does not mention a missing binary. -/
theorem getOpenCodeCommand_failure_modes_counterexample :
    getOpenCodeCommand false (some "/repo/node_modules/@jahands/opencode-cf") none []
        = .error packageNotFoundMsg
      ∧ strContains packageNotFoundMsg "binary not found" = false := by decide

/-- Witness for C5 (amended) at the same concrete input. -/
theorem getOpenCodeCommand_failure_modes_witness :
    (([] : List String).contains
        (joinPath (joinPath "/repo/node_modules/@jahands/opencode-cf" "bin") "opencode")
        = false)
  ∧ (resolveInstalledPackage (some "/repo/node_modules/@jahands/opencode-cf") none []
        = .error binaryNotFoundMsg
      ∧ getOpenCodeCommand false (some "/repo/node_modules/@jahands/opencode-cf") none []
        = .error packageNotFoundMsg) :=
  ⟨rfl, (getOpenCodeCommand_failure_modes (some "/repo/node_modules/@jahands/opencode-cf")
    none []).1 "/repo/node_modules/@jahands/opencode-cf" (Or.inl rfl) rfl⟩

theorem lookup_setDep (deps : List (String × String)) (k v : String)
    (h : (deps.lookup k).isSome = true) :
    (setDep deps k v).lookup k = some v := by
  induction deps with
  | nil => simp [List.lookup] at h
  | cons kv rest ih =>
    obtain ⟨a, b⟩ := kv
    by_cases hk : k = a
    · subst hk
      simp [setDep, List.lookup]
    · have hk1 : (k == a) = false := beq_eq_false_iff_ne.mpr hk
      have hk2 : (a == k) = false := beq_eq_false_iff_ne.mpr (Ne.symm hk)
      simp only [List.lookup, hk1] at h
      simp only [setDep, List.map, hk2, Bool.cond_false, List.lookup, hk1]
      exact ih h

/-- Claim C7: a minor bump on two packages at `1.2.3` produces `1.3.0`
for both and rewrites the cross-dependency to `^1.3.0`; in general a
minor bump increments the minor component of the package's own current
version and zeroes the patch component. -/
theorem publishBump_minor (opencodePkg wranglerPkg : Pkg)
    (deps : List (String × String)) (depVal : String)
    (hoc : opencodePkg.version = "1.2.3") (hwr : wranglerPkg.version = "1.2.3")
    (hdeps : wranglerPkg.dependencies = some deps)
    (hdep : deps.lookup "@jahands/opencode-cf" = some depVal)
    (hval : depVal ≠ "") :
    (∃ ocBumped wranglerFinal,
        publishBump opencodePkg wranglerPkg .minor = some (ocBumped, wranglerFinal)
      ∧ ocBumped.version = "1.3.0"
      ∧ wranglerFinal.version = "1.3.0"
      ∧ ∃ finalDeps, wranglerFinal.dependencies = some finalDeps
          ∧ finalDeps.lookup "@jahands/opencode-cf" = some "^1.3.0")
  ∧ (∀ (p : Pkg) (ma mi pa : Nat), parseVersion p.version = some (ma, mi, pa) →
      updatePackageVersion p .minor = some { p with version := versionString ma (mi + 1) 0 }) := by
  have hgen : ∀ (p : Pkg) (ma mi pa : Nat), parseVersion p.version = some (ma, mi, pa) →
      updatePackageVersion p .minor = some { p with version := versionString ma (mi + 1) 0 } := by
    intro p ma mi pa hp
    simp [updatePackageVersion, hp]
  refine ⟨?_, hgen⟩
  have hparse : parseVersion "1.2.3" = some (1, 2, 3) := by decide
  have hv : versionString 1 (2 + 1) 0 = "1.3.0" := by decide
  have h1 : updatePackageVersion opencodePkg .minor =
      some { opencodePkg with version := "1.3.0" } := by
    have := hgen opencodePkg 1 2 3 (by rw [hoc]; exact hparse)
    rw [this, hv]
  have h2 : updatePackageVersion wranglerPkg .minor =
      some { wranglerPkg with version := "1.3.0" } := by
    have := hgen wranglerPkg 1 2 3 (by rw [hwr]; exact hparse)
    rw [this, hv]
  have hbne : (depVal != "") = true := bne_iff_ne.mpr hval
  have hsome : (deps.lookup "@jahands/opencode-cf").isSome = true := by
    rw [hdep]; rfl
  have hcar : ("^" ++ "1.3.0" : String) = "^1.3.0" := by decide
  have hupd : updateWranglerDependency { wranglerPkg with version := "1.3.0" } "1.3.0"
      = { wranglerPkg with
          version := "1.3.0"
          dependencies := some (setDep deps "@jahands/opencode-cf" "^1.3.0") } := by
    simp [updateWranglerDependency, hdeps, hdep, hbne, hcar]
  refine ⟨{ opencodePkg with version := "1.3.0" },
    updateWranglerDependency { wranglerPkg with version := "1.3.0" } "1.3.0",
    ?_, rfl, ?_, ?_⟩
  · simp [publishBump, h1, h2]
  · rw [hupd]
  · rw [hupd]
    exact ⟨setDep deps "@jahands/opencode-cf" "^1.3.0", rfl,
      lookup_setDep _ _ _ hsome⟩

/-- Witness for C7 at concrete manifests, both at version `1.2.3`,
with the dependency declared as the truthy string `^1.2.3`. -/
theorem publishBump_minor_witness :
    ({ name := "@jahands/opencode-cf", version := "1.2.3",
        dependencies := none } : Pkg).version = "1.2.3"
  ∧ ([("@jahands/opencode-cf", "^1.2.3")] : List (String × String)).lookup
      "@jahands/opencode-cf" = some "^1.2.3"
  ∧ ("^1.2.3" : String) ≠ ""
  ∧ ∃ ocBumped wranglerFinal,
      publishBump
          { name := "@jahands/opencode-cf", version := "1.2.3", dependencies := none }
          { name := "@jahands/wrangler", version := "1.2.3",
            dependencies := some [("@jahands/opencode-cf", "^1.2.3")] } .minor
        = some (ocBumped, wranglerFinal)
      ∧ ocBumped.version = "1.3.0"
      ∧ wranglerFinal.version = "1.3.0"
      ∧ ∃ finalDeps, wranglerFinal.dependencies = some finalDeps
          ∧ finalDeps.lookup "@jahands/opencode-cf" = some "^1.3.0" :=
  ⟨rfl, by decide, by decide,
    (publishBump_minor
      { name := "@jahands/opencode-cf", version := "1.2.3", dependencies := none }
      { name := "@jahands/wrangler", version := "1.2.3",
        dependencies := some [("@jahands/opencode-cf", "^1.2.3")] }
      [("@jahands/opencode-cf", "^1.2.3")] "^1.2.3"
      rfl rfl rfl (by decide) (by decide)).1⟩

/-- Claim C8: in every execution of the coordinator's `main`, the
assistant package is published strictly before the host tool package;
the host tool is never published first. -/
theorem publish_dependency_order (bumpType : String)
    (buildOk pubOcOk pubWrOk gitAddOk : Bool)
    (h : PublishAction.publishWrangler ∈
      mainTrace bumpType buildOk pubOcOk pubWrOk gitAddOk) :
    PublishAction.publishOpenCode ∈
        mainTrace bumpType buildOk pubOcOk pubWrOk gitAddOk
      ∧ (mainTrace bumpType buildOk pubOcOk pubWrOk gitAddOk).indexOf
            PublishAction.publishOpenCode
          < (mainTrace bumpType buildOk pubOcOk pubWrOk gitAddOk).indexOf
            PublishAction.publishWrangler := by
  by_cases hv : validBumpTypes.contains bumpType = true
  · unfold mainTrace at h ⊢
    rw [if_pos hv] at h ⊢
    revert h
    revert buildOk pubOcOk pubWrOk gitAddOk
    decide
  · exfalso
    unfold mainTrace at h
    rw [if_neg hv] at h
    simp at h

/-- Witness for C8 on the full successful run with bump type `minor`. -/
theorem publish_dependency_order_witness :
    PublishAction.publishWrangler ∈ mainTrace "minor" true true true true
  ∧ PublishAction.publishOpenCode ∈ mainTrace "minor" true true true true
  ∧ (mainTrace "minor" true true true true).indexOf PublishAction.publishOpenCode
      < (mainTrace "minor" true true true true).indexOf PublishAction.publishWrangler :=
  ⟨by decide,
    (publish_dependency_order "minor" true true true true (by decide)).1,
    (publish_dependency_order "minor" true true true true (by decide)).2⟩

/-- Claim C9: each per-target manifest carries the templated
`<wrapper-name>-<os>-<arch>` name, singleton `os` and `cpu` arrays with
`windows` normalized to `win32`, and the shared version; the wrapper
manifest carries the same version and maps every emitted target package
name to it in `optionalDependencies` — all manifests of one cycle share
one version string. -/
theorem buildCycle_manifest_invariants (devBuild : Bool)
    (hostPlatform hostArch version : String) :
    (∀ p ∈ (buildCycle devBuild hostPlatform hostArch version).1,
        p.version = version ∧ p.os.length = 1 ∧ p.cpu.length = 1
      ∧ ∃ os arch, (os, arch) ∈ targets devBuild hostPlatform hostArch
          ∧ p.name = mainPackageName ++ "-" ++ os ++ "-" ++ arch
          ∧ p.os = [if os == "windows" then "win32" else os]
          ∧ p.cpu = [arch])
  ∧ (buildCycle devBuild hostPlatform hostArch version).2.name = mainPackageName
  ∧ (buildCycle devBuild hostPlatform hostArch version).2.version = version
  ∧ (buildCycle devBuild hostPlatform hostArch version).2.optionalDependencies
      = ((buildCycle devBuild hostPlatform hostArch version).1).map
          (fun p => (p.name, version)) := by
  refine ⟨?_, rfl, rfl, ?_⟩
  · intro p hp
    simp only [buildCycle, List.mem_map] at hp
    obtain ⟨t, ht, rfl⟩ := hp
    exact ⟨rfl, rfl, rfl, t.1, t.2, ht, rfl, rfl, rfl⟩
  · simp only [buildCycle, List.map_map]
    rfl

/-- Witness for C9: the Windows manifest of a full (non-development)
cycle at version `1.0.0` satisfies the invariants. -/
theorem buildCycle_manifest_invariants_witness :
    (mkPlatformPkg "1.0.0" "windows" "x64" ∈ (buildCycle false "linux" "x64" "1.0.0").1)
  ∧ ((mkPlatformPkg "1.0.0" "windows" "x64").version = "1.0.0"
      ∧ (mkPlatformPkg "1.0.0" "windows" "x64").os.length = 1
      ∧ (mkPlatformPkg "1.0.0" "windows" "x64").cpu.length = 1
      ∧ ∃ os arch, (os, arch) ∈ targets false "linux" "x64"
          ∧ (mkPlatformPkg "1.0.0" "windows" "x64").name
              = mainPackageName ++ "-" ++ os ++ "-" ++ arch
          ∧ (mkPlatformPkg "1.0.0" "windows" "x64").os
              = [if os == "windows" then "win32" else os]
          ∧ (mkPlatformPkg "1.0.0" "windows" "x64").cpu = [arch]) :=
  ⟨by decide,
    (buildCycle_manifest_invariants false "linux" "x64" "1.0.0").1
      (mkPlatformPkg "1.0.0" "windows" "x64") (by decide)⟩

/-- Claim C10: a supplied prompt that is the empty string or not a
string behaves exactly as no instruction: the launch is identical to the
promptless launch, a session is still spawned when resolution succeeds,
and the child environment carries no initial-prompt entry (given a base
environment without one). -/
theorem launchOpenCode_empty_or_nonstring_prompt (args : OpenCodeArgs)
    (baseEnv : List (String × String)) (fs0 : List String) (projectRoot : String)
    (configRead : Option Config) (wranglerEnv : Option String)
    (resolution : Except String OCCommand) (outcome : ChildOutcome)
    (tmpDir : String) (now : Nat)
    (h : args.prompt = some (.str "") ∨ ∀ s, args.prompt ≠ some (.str s)) :
    launchOpenCode args baseEnv fs0 projectRoot configRead wranglerEnv
        resolution outcome tmpDir now
      = launchOpenCode { prompt := none } baseEnv fs0 projectRoot configRead
          wranglerEnv resolution outcome tmpDir now
  ∧ (∀ cmd, resolution = .ok cmd →
      ((launchOpenCode args baseEnv fs0 projectRoot configRead wranglerEnv
        resolution outcome tmpDir now).spawned).isSome = true)
  ∧ (envLookup baseEnv "OPENCODE_INITIAL_PROMPT" = none →
      ∀ sp, (launchOpenCode args baseEnv fs0 projectRoot configRead wranglerEnv
          resolution outcome tmpDir now).spawned = some sp →
        envLookup sp.env "OPENCODE_INITIAL_PROMPT" = none) := by
  have hext : extractInitialPrompt args.prompt = none := by
    rcases h with h | h
    · rw [h]; rfl
    · cases hp : args.prompt with
      | none => rfl
      | some v =>
        cases v with
        | str s => exact absurd hp (h s)
        | num n => rfl
        | boolean b => rfl
        | null => rfl
  refine ⟨?_, ?_, ?_⟩
  · have hnone : extractInitialPrompt (({ prompt := none } : OpenCodeArgs).prompt) = none :=
      rfl
    simp only [launchOpenCode, hext, hnone]
  · intro cmd hres
    subst hres
    simp [launchOpenCode, hext, runInteractiveSession]
  · intro hbase sp hsp
    cases resolution with
    | error e =>
      simp [launchOpenCode, hext, runInteractiveSession] at hsp
    | ok cmd =>
      have hspawn : (launchOpenCode args baseEnv fs0 projectRoot configRead
          wranglerEnv (.ok cmd) outcome tmpDir now).spawned
          = some { command := cmd.command
                   args := cmd.args ++ [projectRoot]
                   env := spawnEnv baseEnv (contextFilePath tmpDir now) none } := by
        simp [launchOpenCode, hext, runInteractiveSession, writeContextFile,
          gatherProjectContext]
      rw [hspawn] at hsp
      injection hsp with h2
      rw [← h2]
      rw [envLookup_spawnEnv_prompt_missing baseEnv (contextFilePath tmpDir now)
        none (Or.inl rfl)]
      exact hbase

/-- Witness for C10: an empty-string prompt at a concrete invocation
launches exactly like the promptless invocation and still spawns. -/
theorem launchOpenCode_empty_or_nonstring_prompt_witness :
    (({ prompt := some (.str "") } : OpenCodeArgs).prompt = some (JSVal.str ""))
  ∧ launchOpenCode { prompt := some (.str "") } [] [] "/proj" none none
        (.ok { command := "bun", args := ["run", "idx"] }) (.exited (some 0)) "/tmp" 7
      = launchOpenCode { prompt := none } [] [] "/proj" none none
        (.ok { command := "bun", args := ["run", "idx"] }) (.exited (some 0)) "/tmp" 7
  ∧ ((launchOpenCode { prompt := some (.str "") } [] [] "/proj" none none
        (.ok { command := "bun", args := ["run", "idx"] }) (.exited (some 0))
        "/tmp" 7).spawned).isSome = true :=
  ⟨rfl,
    (launchOpenCode_empty_or_nonstring_prompt { prompt := some (.str "") } [] []
      "/proj" none none (.ok { command := "bun", args := ["run", "idx"] })
      (.exited (some 0)) "/tmp" 7 (Or.inl rfl)).1,
    (launchOpenCode_empty_or_nonstring_prompt { prompt := some (.str "") } [] []
      "/proj" none none (.ok { command := "bun", args := ["run", "idx"] })
      (.exited (some 0)) "/tmp" 7 (Or.inl rfl)).2.1
      { command := "bun", args := ["run", "idx"] } rfl⟩

end WranglerOpenCode
